import Mathlib

/-!
Shallow embedding of `Tool Integration/tools_demo.py`: a four-stage linear
pipeline (query enhancer, web-search tool, summarizer, output formatter)
over a shared `ToolState` record, plus the per-query driver loop.

External services (the Ollama language model and the DuckDuckGo search
client) are black boxes; they are modelled as function parameters. A
language-model call either returns response text or raises, so it is a
function `String → Except String String` (the error carries `str(e)`).
A search call returns a list of result records (each a dict possibly
holding `title` and `body` keys) or raises, so it is a function
`String → Except String (List SearchResult)`.
-/

deriving instance DecidableEq for Except

namespace ToolsDemo

/-- One result object returned by the search service: a dict that may or
may not carry `title` and `body` fields (the code reads them with
`result.get` with defaults `No title` / `No description`). -/
structure SearchResult where
  title : Option String
  body : Option String
deriving Repr, DecidableEq

/-- The `ToolState` TypedDict threaded through the pipeline. -/
structure ToolState where
  query : String
  enhanced_query : String
  search_results : List String
  summary : String
deriving Repr, DecidableEq

/-- Model of Python `str.strip()`: remove leading and trailing whitespace
characters. -/
def pyStrip (s : String) : String :=
  String.mk (((s.data.dropWhile Char.isWhitespace).reverse.dropWhile Char.isWhitespace).reverse)

/-- The prompt built by `enhance_query_node` (the f-string literal,
including its source-level indentation). -/
def enhance_prompt (query : String) : String :=
  "Enhance this search query to get better results. \n    Make it more specific and add relevant keywords.\n    Original query: " ++ query ++ "\n    Enhanced query (return only the query, no explanation):"

/-- `enhance_query_node`: calls the LLM on the enhancement prompt and
stores the stripped response text in `enhanced_query`. An LLM error is
not caught here and propagates. -/
def enhance_query_node (llm : String → Except String String)
    (state : ToolState) : Except String ToolState :=
  (llm (enhance_prompt state.query)).map fun resp =>
    { state with enhanced_query := pyStrip resp }

/-- The query string the search stage sends to the search service:
`state["enhanced_query"] or state["query"]` (Python `or` on strings falls
back exactly when the first operand is empty). -/
def searchQuery (state : ToolState) : String :=
  if state.enhanced_query = "" then state.query else state.enhanced_query

/-- The body of the `for i, result in enumerate(results, 1)` loop:
format one result as `f"{i}. {title}: {body}"` with the `.get` defaults. -/
def formatResult (i : Nat) (r : SearchResult) : String :=
  toString i ++ ". " ++ r.title.getD "No title" ++ ": " ++ r.body.getD "No description"

/-- The `enumerate(results, 1)` loop building `search_results`,
carrying the 1-based index. -/
def formatResultsAux : Nat → List SearchResult → List String
  | _, [] => []
  | i, r :: rs => formatResult i r :: formatResultsAux (i + 1) rs

/-- `search_tool_node`: sends `searchQuery state` to the search service
(requesting at most 3 results), formats each result, substitutes the
no-results placeholder when the formatted list is empty, and converts any
raised error into the single `"Search error: ..."` entry. -/
def search_tool_node (svc : String → Except String (List SearchResult))
    (state : ToolState) : ToolState :=
  match svc (searchQuery state) with
  | Except.ok results =>
      let formatted := formatResultsAux 1 results
      if formatted = [] then
        { state with search_results := ["No results found. Try a different query."] }
      else
        { state with search_results := formatted }
  | Except.error e =>
      { state with search_results := ["Search error: " ++ e ++ ". Using fallback data."] }

/-- The prompt built by `summarize_node`: embeds the original query and
the newline-joined `search_results`. -/
def summarize_prompt (state : ToolState) : String :=
  "Summarize these search results for the query \x27" ++ state.query ++ "\x27:\n\n" ++ String.intercalate "\n" state.search_results ++ "\n\nProvide a concise, helpful summary:"

/-- `summarize_node`: calls the LLM on the summary prompt and stores the
raw (untrimmed) response text in `summary`. An LLM error propagates. -/
def summarize_node (llm : String → Except String String)
    (state : ToolState) : Except String ToolState :=
  (llm (summarize_prompt state)).map fun resp =>
    { state with summary := resp }

/-- The `'='*50` separator line used by the formatter. -/
def sep50 : String := String.mk (List.replicate 50 '=')

/-- The report text rendered by `format_output_node` (its `output`
f-string). -/
def format_output (state : ToolState) : String :=
  "\n" ++ sep50 ++ "\n🔍 SEARCH RESULTS\n" ++ sep50 ++ "\nQuery: " ++ state.query ++ "\nEnhanced: " ++ state.enhanced_query ++ "\n\nResults Found: " ++ toString state.search_results.length ++ "\n\nSummary:\n" ++ state.summary ++ "\n" ++ sep50 ++ "\n"

/-- `format_output_node`: renders the report and returns the state
unchanged (`return state`). The produced report text is the second
component. -/
def format_output_node (state : ToolState) : ToolState × String :=
  (state, format_output state)

/-- The `initial_state` dict built by the driver for one query. -/
def initState (q : String) : ToolState :=
  { query := q, enhanced_query := "", search_results := [], summary := "" }

/-- One `app.invoke(initial_state)`: the compiled graph runs the four
nodes in order, merging the update returned by each node into the state.
Uncaught LLM errors from the enhancer or summarizer abort the run. -/
def runPipeline (llm : String → Except String String)
    (svc : String → Except String (List SearchResult))
    (q : String) : Except String (ToolState × String) := do
  let s1 ← enhance_query_node llm (initState q)
  let s2 := search_tool_node svc s1
  let s3 ← summarize_node llm s2
  pure (format_output_node s3)

/-- The `for query in test_queries` driver loop: each query is run under
its own try/except, so a failed run yields an `Except.error` entry and
the loop continues with the remaining queries. -/
def driverLoop (llm : String → Except String String)
    (svc : String → Except String (List SearchResult)) :
    List String → List (Except String (ToolState × String))
  | [] => []
  | q :: qs => runPipeline llm svc q :: driverLoop llm svc qs

/-- The fixed `test_queries` list of the driver. -/
def test_queries : List String :=
  ["What is LangGraph used for?", "How to build AI agents?", "DuckDuckGo search API"]

/-! ### Helper lemmas -/

theorem formatResultsAux_length (l : List SearchResult) :
    ∀ i, (formatResultsAux i l).length = l.length := by
  induction l with
  | nil => intro i; rfl
  | cons r rs ih => intro i; simp [formatResultsAux, ih]

theorem formatResultsAux_getElem (l : List SearchResult) :
    ∀ i k, (formatResultsAux i l)[k]? = l[k]?.map (fun r => formatResult (i + k) r) := by
  induction l with
  | nil => intro i k; simp [formatResultsAux]
  | cons r rs ih =>
      intro i k
      cases k with
      | zero => simp [formatResultsAux]
      | succ k =>
          have h := ih (i + 1) k
          have harith : i + 1 + k = i + (k + 1) := by omega
          simp only [formatResultsAux, List.getElem?_cons_succ, h, harith]

theorem enhance_query_node_ok (llm : String → Except String String)
    (state : ToolState) (r : String)
    (h : llm (enhance_prompt state.query) = Except.ok r) :
    enhance_query_node llm state = Except.ok { state with enhanced_query := pyStrip r } := by
  unfold enhance_query_node
  rw [h]
  rfl

theorem summarize_node_ok (llm : String → Except String String)
    (state : ToolState) (r : String)
    (h : llm (summarize_prompt state) = Except.ok r) :
    summarize_node llm state = Except.ok { state with summary := r } := by
  unfold summarize_node
  rw [h]
  rfl

theorem search_tool_node_error (svc : String → Except String (List SearchResult))
    (state : ToolState) (e : String)
    (h : svc (searchQuery state) = Except.error e) :
    search_tool_node svc state =
      { state with search_results := ["Search error: " ++ e ++ ". Using fallback data."] } := by
  unfold search_tool_node
  rw [h]

theorem pyStrip_of_whitespace (s : String) (h : ∀ c ∈ s.data, c.isWhitespace) :
    pyStrip s = "" := by
  unfold pyStrip
  rw [List.dropWhile_eq_nil_iff.mpr h]
  rfl

theorem format_output_decomp (s : ToolState) :
    format_output s =
      ("\n" ++ sep50 ++ "\n🔍 SEARCH RESULTS\n" ++ sep50 ++ "\nQuery: " ++ s.query ++ "\nEnhanced: " ++ s.enhanced_query ++ "\n\n")
      ++ ("Results Found: " ++ toString s.search_results.length)
      ++ ("\n\nSummary:\n" ++ s.summary ++ "\n" ++ sep50 ++ "\n") := by
  have hsplit : ("\n\nResults Found: " : String) = "\n\n" ++ "Results Found: " := rfl
  simp only [format_output, hsplit, String.append_assoc]

/-! ### Claim theorems -/

/-- C1: if the search-service call raises any error, the search stage
catches it and sets `search_results` to the single entry
`"Search error: " ++ message ++ ". Using fallback data."`, and the
pipeline still continues through the summarizer to the formatter,
producing a successful run whose final state carries that entry. -/
theorem C1_search_error_recovered
    (llm : String → Except String String)
    (svc : String → Except String (List SearchResult))
    (q e r1 r2 : String) (finalSt : ToolState)
    (h1 : llm (enhance_prompt q) = Except.ok r1)
    (h2 : svc (searchQuery { initState q with enhanced_query := pyStrip r1 }) = Except.error e)
    (h3 : llm (summarize_prompt { initState q with
            enhanced_query := pyStrip r1,
            search_results := ["Search error: " ++ e ++ ". Using fallback data."] }) = Except.ok r2)
    (hfs : finalSt = { initState q with
            enhanced_query := pyStrip r1,
            search_results := ["Search error: " ++ e ++ ". Using fallback data."],
            summary := r2 }) :
    runPipeline llm svc q = Except.ok (finalSt, format_output finalSt) ∧
    finalSt.search_results = ["Search error: " ++ e ++ ". Using fallback data."] := by
  subst hfs
  refine ⟨?_, rfl⟩
  have he : enhance_query_node llm (initState q) =
      Except.ok { initState q with enhanced_query := pyStrip r1 } :=
    enhance_query_node_ok llm (initState q) r1 h1
  have hs : search_tool_node svc { initState q with enhanced_query := pyStrip r1 } =
      { initState q with
        enhanced_query := pyStrip r1,
        search_results := ["Search error: " ++ e ++ ". Using fallback data."] } :=
    search_tool_node_error svc _ e h2
  have hm := summarize_node_ok llm
    { initState q with
      enhanced_query := pyStrip r1,
      search_results := ["Search error: " ++ e ++ ". Using fallback data."] } r2 h3
  simp only [runPipeline, he, hs, hm, Except.bind, bind, format_output_node, pure, Except.pure]

/-- C1 witness: a concrete run where the enhancer returns
`"test explained"`, the search service raises `ConnectionError("timeout")`
(message `"timeout"`), and the summarizer returns `"Summary text"`. -/
theorem C1_search_error_recovered_witness :
    runPipeline
        (fun p => if p = enhance_prompt "test" then Except.ok "test explained"
                  else Except.ok "Summary text")
        (fun _ => Except.error "timeout") "test" =
      Except.ok (ToolState.mk "test" "test explained"
          ["Search error: timeout. Using fallback data."] "Summary text",
        format_output (ToolState.mk "test" "test explained"
          ["Search error: timeout. Using fallback data."] "Summary text")) ∧
    (ToolState.mk "test" "test explained"
        ["Search error: timeout. Using fallback data."] "Summary text").search_results =
      ["Search error: timeout. Using fallback data."] :=
  C1_search_error_recovered
    (fun p => if p = enhance_prompt "test" then Except.ok "test explained"
              else Except.ok "Summary text")
    (fun _ => Except.error "timeout")
    "test" "timeout" "test explained" "Summary text"
    (ToolState.mk "test" "test explained"
      ["Search error: timeout. Using fallback data."] "Summary text")
    (by simp) rfl (by decide) (by decide)

/-- C2: when the service returns N results (1 ≤ N ≤ 3), the search stage
sets `search_results` to exactly N entries, in input order, the k-th
entry being the (k+1)-indexed rendering `"{index}. {title}: {description}"`
with the `"No title"` / `"No description"` placeholders for absent fields. -/
theorem C2_search_formats_results
    (svc : String → Except String (List SearchResult))
    (state : ToolState) (results : List SearchResult)
    (hok : svc (searchQuery state) = Except.ok results)
    (hne : results ≠ []) ( _hcap : results.length ≤ 3) :
    (search_tool_node svc state).search_results.length = results.length ∧
    ∀ k : Nat, (search_tool_node svc state).search_results[k]? =
      results[k]?.map (fun r =>
        toString (k + 1) ++ ". " ++ r.title.getD "No title" ++ ": " ++ r.body.getD "No description") := by
  have hlen := formatResultsAux_length results 1
  have hne2 : ¬ formatResultsAux 1 results = [] := by
    intro hnil
    rw [hnil] at hlen
    exact hne (List.length_eq_zero.mp hlen.symm)
  unfold search_tool_node
  rw [hok]
  simp only [if_neg hne2]
  refine ⟨hlen, fun k => ?_⟩
  rw [formatResultsAux_getElem results 1 k]
  have harith : 1 + k = k + 1 := by omega
  simp only [formatResult, harith]

/-- C2 witness: two results, the second lacking both fields. -/
theorem C2_search_formats_results_witness :
    (search_tool_node (fun _ => Except.ok [SearchResult.mk (some "A") (some "B"), SearchResult.mk none none])
        (initState "q")).search_results.length = 2 ∧
    (search_tool_node (fun _ => Except.ok [SearchResult.mk (some "A") (some "B"), SearchResult.mk none none])
        (initState "q")).search_results[1]? = some "2. No title: No description" := by
  have h := C2_search_formats_results
    (fun _ => Except.ok [SearchResult.mk (some "A") (some "B"), SearchResult.mk none none])
    (initState "q") [SearchResult.mk (some "A") (some "B"), SearchResult.mk none none]
    rfl (by decide) (by decide)
  exact ⟨h.1, by rw [h.2 1]; rfl⟩

/-- C3: when the service returns zero results without raising, the search
stage sets `search_results` to exactly
`["No results found. Try a different query."]`. -/
theorem C3_no_results_placeholder
    (svc : String → Except String (List SearchResult)) (state : ToolState)
    (hok : svc (searchQuery state) = Except.ok []) :
    (search_tool_node svc state).search_results =
      ["No results found. Try a different query."] := by
  unfold search_tool_node
  rw [hok]
  rfl

/-- C3 witness: a service that returns the empty result list. -/
theorem C3_no_results_placeholder_witness :
    (search_tool_node (fun _ => Except.ok []) (initState "q")).search_results =
      ["No results found. Try a different query."] :=
  C3_no_results_placeholder (fun _ => Except.ok []) (initState "q") rfl

/-- C4: the query string the search stage sends to the service is
`enhanced_query` when it is non-empty and the original `query` when it is
empty; the result of the search stage depends on the service only through its
value at that query string. -/
theorem C4_search_query_fallback (state : ToolState) :
    (state.enhanced_query ≠ "" → searchQuery state = state.enhanced_query) ∧
    (state.enhanced_query = "" → searchQuery state = state.query) ∧
    ∀ svc svc' : String → Except String (List SearchResult),
      svc (searchQuery state) = svc' (searchQuery state) →
      search_tool_node svc state = search_tool_node svc' state := by
  refine ⟨fun h => ?_, fun h => ?_, fun svc svc' h => ?_⟩
  · unfold searchQuery
    rw [if_neg h]
  · unfold searchQuery
    rw [if_pos h]
  · unfold search_tool_node
    rw [h]

/-- C4 witness: with a non-empty enhancement the enhanced query is sent;
with an empty enhancement the original query is sent. -/
theorem C4_search_query_fallback_witness :
    searchQuery (ToolState.mk "orig" "enh" [] "") = "enh" ∧
    searchQuery (ToolState.mk "orig" "" [] "") = "orig" :=
  ⟨(C4_search_query_fallback (ToolState.mk "orig" "enh" [] "")).1 (by decide),
   (C4_search_query_fallback (ToolState.mk "orig" "" [] "")).2.1 rfl⟩

/-- C5: each stage writes only its own field: the enhancer preserves
`query`, `search_results` and `summary`; the search stage preserves
`query`, `enhanced_query` and `summary`; the summarizer preserves
`query`, `enhanced_query` and `search_results`; the formatter returns the
record unchanged. In particular `query` is never modified. -/
theorem C5_stage_frame_conditions
    (llm : String → Except String String)
    (svc : String → Except String (List SearchResult)) (state : ToolState) :
    (∀ s', enhance_query_node llm state = Except.ok s' →
      s'.query = state.query ∧ s'.search_results = state.search_results ∧
      s'.summary = state.summary) ∧
    ((search_tool_node svc state).query = state.query ∧
     (search_tool_node svc state).enhanced_query = state.enhanced_query ∧
     (search_tool_node svc state).summary = state.summary) ∧
    (∀ s', summarize_node llm state = Except.ok s' →
      s'.query = state.query ∧ s'.enhanced_query = state.enhanced_query ∧
      s'.search_results = state.search_results) ∧
    (format_output_node state).1 = state := by
  refine ⟨fun s' h => ?_, ?_, fun s' h => ?_, rfl⟩
  · unfold enhance_query_node at h
    cases hllm : llm (enhance_prompt state.query) with
    | ok r => rw [hllm] at h; cases h; exact ⟨rfl, rfl, rfl⟩
    | error e => rw [hllm] at h; cases h
  · unfold search_tool_node
    cases svc (searchQuery state) with
    | ok results =>
        simp only []
        split
        · exact ⟨rfl, rfl, rfl⟩
        · exact ⟨rfl, rfl, rfl⟩
    | error e => exact ⟨rfl, rfl, rfl⟩
  · unfold summarize_node at h
    cases hllm : llm (summarize_prompt state) with
    | ok r => rw [hllm] at h; cases h; exact ⟨rfl, rfl, rfl⟩
    | error e => rw [hllm] at h; cases h

/-- C5 witness: a concrete state passed through the enhancer, the search
stage and the summarizer keeps every other field intact. -/
theorem C5_stage_frame_conditions_witness :
    ((ToolState.mk "q" "new" ["r"] "s").query = "q" ∧
     (ToolState.mk "q" "new" ["r"] "s").search_results = ["r"] ∧
     (ToolState.mk "q" "new" ["r"] "s").summary = "s") ∧
    (search_tool_node (fun _ => Except.ok []) (ToolState.mk "q" "e" ["r"] "s")).summary = "s" :=
  ⟨(C5_stage_frame_conditions (fun _ => Except.ok " new ") (fun _ => Except.ok [])
      (ToolState.mk "q" "e" ["r"] "s")).1 (ToolState.mk "q" "new" ["r"] "s") (by decide),
   (C5_stage_frame_conditions (fun _ => Except.ok " new ") (fun _ => Except.ok [])
      (ToolState.mk "q" "e" ["r"] "s")).2.1.2.2⟩

/-- C6: the output formatter is a pure function of the Run Record: it
returns the record itself unchanged, and a second invocation on the
returned record produces byte-identical report text. -/
theorem C6_formatter_pure_idempotent (state : ToolState) :
    (format_output_node state).1 = state ∧
    (format_output_node state).2 = (format_output_node (format_output_node state).1).2 :=
  ⟨rfl, rfl⟩

/-- C7: the driver runs the pipeline once per query of the list,
independently: the loop produces one entry per query, and the k-th entry
is exactly the pipeline run on the k-th query, whatever happens (including
a raised error, recorded as `Except.error`) on any other query. -/
theorem C7_driver_runs_queries_independently
    (llm : String → Except String String)
    (svc : String → Except String (List SearchResult))
    (queries : List String) :
    (driverLoop llm svc queries).length = queries.length ∧
    ∀ k : Nat, (driverLoop llm svc queries)[k]? =
      queries[k]?.map (runPipeline llm svc) := by
  induction queries with
  | nil => exact ⟨rfl, fun k => by simp [driverLoop]⟩
  | cons q qs ih =>
      refine ⟨by simp [driverLoop, ih.1], fun k => ?_⟩
      cases k with
      | zero => simp [driverLoop]
      | succ k => simp only [driverLoop, List.getElem?_cons_succ, ih.2 k]

/-- C8: the enhancer stores the trimmed model response in
`enhanced_query`, while the summarizer stores the raw, untrimmed model
response in `summary` — for every response text, `summary` equals that
text exactly. -/
theorem C8_trimmed_vs_raw_response
    (llm : String → Except String String) (state : ToolState) (r r' : String) :
    (llm (enhance_prompt state.query) = Except.ok r →
      enhance_query_node llm state = Except.ok { state with enhanced_query := pyStrip r }) ∧
    (llm (summarize_prompt state) = Except.ok r' →
      summarize_node llm state = Except.ok { state with summary := r' }) :=
  ⟨fun h => enhance_query_node_ok llm state r h,
   fun h => summarize_node_ok llm state r' h⟩

/-- C8 witness: the response `"  raw  "` becomes `enhanced_query = "raw"`
in stage 1 but `summary = "  raw  "`, whitespace intact, in stage 3. -/
theorem C8_trimmed_vs_raw_response_witness :
    enhance_query_node (fun _ => Except.ok "  raw  ") (initState "q") =
      Except.ok (ToolState.mk "q" "raw" [] "") ∧
    summarize_node (fun _ => Except.ok "  raw  ") (initState "q") =
      Except.ok (ToolState.mk "q" "" [] "  raw  ") := by
  have h := C8_trimmed_vs_raw_response (fun _ => Except.ok "  raw  ")
    (initState "q") "  raw  " "  raw  "
  exact ⟨by rw [h.1 rfl]; decide, by rw [h.2 rfl]; decide⟩

/-- C9: whatever the service does (1–3 results, zero results, or an
error), `search_results` afterwards is non-empty and, when the service
honors the requested cap of 3, has at most 3 entries; the formatter
prints `Results Found:` followed by exactly this length, so the printed
count is at least 1 even when only a placeholder entry is present. -/
theorem C9_search_results_nonempty_capped
    (svc : String → Except String (List SearchResult)) (state : ToolState)
    (hcap : ∀ results, svc (searchQuery state) = Except.ok results → results.length ≤ 3) :
    1 ≤ (search_tool_node svc state).search_results.length ∧
    (search_tool_node svc state).search_results.length ≤ 3 ∧
    format_output (search_tool_node svc state) =
      ("\n" ++ sep50 ++ "\n🔍 SEARCH RESULTS\n" ++ sep50 ++ "\nQuery: " ++ (search_tool_node svc state).query ++ "\nEnhanced: " ++ (search_tool_node svc state).enhanced_query ++ "\n\n")
      ++ ("Results Found: " ++ toString (search_tool_node svc state).search_results.length)
      ++ ("\n\nSummary:\n" ++ (search_tool_node svc state).summary ++ "\n" ++ sep50 ++ "\n") := by
  refine ⟨?_, ?_, format_output_decomp _⟩ <;>
  · unfold search_tool_node
    cases hsvc : svc (searchQuery state) with
    | ok results =>
        have hc := hcap results hsvc
        have hlen := formatResultsAux_length results 1
        simp only []
        split
        · simp
        · rename_i hnil
          simp only [hlen]
          first
          | exact hc
          | exact Nat.succ_le_of_lt (List.length_pos.mpr fun hr => hnil (by rw [hr]; rfl))
    | error e => simp

/-- C9 witness: a one-result service. -/
theorem C9_search_results_nonempty_capped_witness :
    1 ≤ (search_tool_node (fun _ => Except.ok [SearchResult.mk (some "A") (some "B")])
          (initState "q")).search_results.length ∧
    (search_tool_node (fun _ => Except.ok [SearchResult.mk (some "A") (some "B")])
      (initState "q")).search_results.length ≤ 3 := by
  have h := C9_search_results_nonempty_capped
    (fun _ => Except.ok [SearchResult.mk (some "A") (some "B")]) (initState "q")
    (fun results hr => by cases hr; decide)
  exact ⟨h.1, h.2.1⟩

/-- C10: a whitespace-only model response is trimmed to the empty string
by the enhancer, so the search stage falls back to the original query,
exactly as with an empty enhancement. -/
theorem C10_whitespace_enhancement_falls_back
    (llm : String → Except String String) (state : ToolState) (resp : String)
    (hws : ∀ c ∈ resp.data, c.isWhitespace)
    (hok : llm (enhance_prompt state.query) = Except.ok resp) :
    enhance_query_node llm state = Except.ok { state with enhanced_query := "" } ∧
    searchQuery { state with enhanced_query := "" } = state.query := by
  have hstrip : pyStrip resp = "" := pyStrip_of_whitespace resp hws
  refine ⟨?_, rfl⟩
  rw [enhance_query_node_ok llm state resp hok, hstrip]

/-- C10 witness: the whitespace-only response `" \n\t "`. -/
theorem C10_whitespace_enhancement_falls_back_witness :
    enhance_query_node (fun _ => Except.ok " \n\t ") (initState "orig") =
      Except.ok (ToolState.mk "orig" "" [] "") ∧
    searchQuery (ToolState.mk "orig" "" [] "") = "orig" :=
  C10_whitespace_enhancement_falls_back (fun _ => Except.ok " \n\t ")
    (initState "orig") " \n\t " (by decide) rfl

end ToolsDemo
